import Mathlib

/-
Verification of the band-routed NOx prediction service (src/backend/api.py).

The service loads, per operating band, a feature-order list (from a JSON
metadata artifact) and a regression model, and exposes three POST routes.
Each route parses the request body into a `Sample` record with 9 required
float fields, projects the record onto the band's feature order
(`pd.DataFrame([payload.dict()])[features]`), invokes the band's model on
the resulting single-row vector, and answers `{"NOX_pred": float(pred[0])}`.

Field values are embedded as rationals; a model is a black-box function
from a feature vector to a list of outputs (one per row).
-/

set_option autoImplicit false

namespace TurbineNox

/-- A JSON value, as produced by parsing a request body or a metadata
artifact.  Numbers carry their rational value (JSON integers are `num q`
with `q` integral). -/
inductive Json where
  | num (q : Rat)
  | str (s : String)
  | jbool (b : Bool)
  | null
  | arr (elems : List Json)
  | obj (entries : List (String × Json))

/-- The request model `Sample` from api.py: nine required float fields, in
declaration order TIT, TAT, CDP, GTEP, AFDP, AT, AP, AH, TEY. -/
structure Sample where
  TIT : Rat
  TAT : Rat
  CDP : Rat
  GTEP : Rat
  AFDP : Rat
  AT : Rat
  AP : Rat
  AH : Rat
  TEY : Rat
deriving DecidableEq

/-- Error taxonomy of the service: startup artifact failures
(FileNotFoundError / JSONDecodeError / KeyError at module load), request
validation failures (pydantic 422), feature/column mismatches (pandas
KeyError inside a handler), and model invocation failures. -/
inductive ApiError where
  | configuration
  | validation
  | featureMismatch
  | inference
deriving DecidableEq

/-- The declared field names of `Sample`, in declaration order; these are
the keys of `payload.dict()` and hence the columns of the one-row
DataFrame. -/
def sampleFields : List String :=
  ["TIT", "TAT", "CDP", "GTEP", "AFDP", "AT", "AP", "AH", "TEY"]

/-- Column access on the one-row DataFrame built from `payload.dict()`:
a declared field name yields that field's value, any other name is not a
column. -/
def getField (s : Sample) (name : String) : Option Rat :=
  if name = "TIT" then some s.TIT
  else if name = "TAT" then some s.TAT
  else if name = "CDP" then some s.CDP
  else if name = "GTEP" then some s.GTEP
  else if name = "AFDP" then some s.AFDP
  else if name = "AT" then some s.AT
  else if name = "AP" then some s.AP
  else if name = "AH" then some s.AH
  else if name = "TEY" then some s.TEY
  else none

/-- Pandas column selection `df[order]` on the one-row DataFrame: if every
name in `order` is a column, the row is returned with the values in exactly
the sequence of `order`; otherwise pandas raises a KeyError (surfaced as a
feature-mismatch server error), before any model runs. -/
def selectColumns (order : List String) (s : Sample) : Except ApiError (List Rat) :=
  if order.all (fun n => (getField s n).isSome) then
    .ok (order.map (fun n => (getField s n).getD 0))
  else
    .error .featureMismatch

/-- A loaded regression model: a black-box pure function taking the rows of
a feature matrix and returning one scalar per row (`model.predict`). -/
structure Model where
  predict : List Rat → List Rat

/-- The module-level state loaded at startup: one feature order and one
model per band (the globals features_full/features_130/features_160 and
model_full/model_130/model_160 of api.py). -/
structure ServerState where
  features_full : List String
  features_130 : List String
  features_160 : List String
  model_full : Model
  model_130 : Model
  model_160 : Model

/-- Body shared by the three route handlers: build the single-row feature
vector `X = pd.DataFrame([payload.dict()])[features]`, call
`model.predict(X)`, take element 0 (an empty prediction output would raise
an IndexError, surfaced as an inference error), and wrap it as the
single-field response object. -/
def predictHandler (features : List String) (m : Model) (payload : Sample) :
    Except ApiError (List (String × Rat)) :=
  match selectColumns features payload with
  | .error e => .error e
  | .ok x =>
    match (m.predict x).head? with
    | some y => .ok [("NOX_pred", y)]
    | none => .error .inference

/-- Route handler for POST /predict_full. -/
def predict_full (st : ServerState) (payload : Sample) :
    Except ApiError (List (String × Rat)) :=
  predictHandler st.features_full st.model_full payload

/-- Route handler for POST /predict_130_136. -/
def predict_130 (st : ServerState) (payload : Sample) :
    Except ApiError (List (String × Rat)) :=
  predictHandler st.features_130 st.model_130 payload

/-- Route handler for POST /predict_160p. -/
def predict_160 (st : ServerState) (payload : Sample) :
    Except ApiError (List (String × Rat)) :=
  predictHandler st.features_160 st.model_160 payload

/-- The three operating bands, one per route. -/
inductive Band where
  | full
  | mid130
  | high160
deriving DecidableEq

/-- The feature order a band's route reads. -/
def bandFeatures : Band → ServerState → List String
  | .full => ServerState.features_full
  | .mid130 => ServerState.features_130
  | .high160 => ServerState.features_160

/-- The model a band's route invokes. -/
def bandModel : Band → ServerState → Model
  | .full => ServerState.model_full
  | .mid130 => ServerState.model_130
  | .high160 => ServerState.model_160

/-- Dispatch a validated request to the band's route handler. -/
def route : Band → ServerState → Sample → Except ApiError (List (String × Rat))
  | .full => predict_full
  | .mid130 => predict_130
  | .high160 => predict_160

/-- First value bound to a key in a JSON object, seen as an association
list. -/
def lookup (entries : List (String × Json)) (k : String) : Option Json :=
  (entries.find? (fun p => p.1 = k)).map (fun p => p.2)

/-- Whitespace characters Python strips around a float string. -/
def pySpace (c : Char) : Bool :=
  c == ' ' || c == '\t' || c == '\n' || c == '\r' || c == '\x0b' || c == '\x0c'

/-- A float string with its surrounding whitespace stripped. -/
def stripWs (s : String) : List Char :=
  ((s.toList.dropWhile pySpace).reverse.dropWhile pySpace).reverse

/-- Split an optional leading sign off a float string's body; the flag is
true for a negative sign. -/
def splitSign : List Char → Bool × List Char
  | '-' :: r => (true, r)
  | '+' :: r => (false, r)
  | r => (false, r)

/-- Continue scanning a digit run whose first digit was already consumed:
further digits extend the run, a single underscore is allowed between two
digits (as in Python numeric literals), and anything else ends the run.
Returns the accumulated value, the number of digits read, and the unread
remainder. -/
def scanDigitsAux : List Char → Nat → Nat → Nat × Nat × List Char
  | '_' :: c :: rest, acc, n =>
    if c.isDigit then scanDigitsAux rest (acc * 10 + (c.toNat - 48)) (n + 1)
    else (acc, n, '_' :: c :: rest)
  | c :: rest, acc, n =>
    if c.isDigit then scanDigitsAux rest (acc * 10 + (c.toNat - 48)) (n + 1)
    else (acc, n, c :: rest)
  | [], acc, n => (acc, n, [])

/-- Scan a digit run (digits with single underscores between them); fails
unless the input starts with a digit. Returns the value, the digit count,
and the unread remainder. -/
def scanDigits : List Char → Option (Nat × Nat × List Char)
  | c :: rest =>
    if c.isDigit then some (scanDigitsAux rest (c.toNat - 48) 1) else none
  | [] => none

/-- An exponent's digit run, which must consume the whole remainder. -/
def scanExpDigits (cs : List Char) : Option Nat :=
  match scanDigits cs with
  | some (v, _, []) => some v
  | _ => none

/-- The signed exponent value after the letter e. -/
def parseExpAfterE (cs : List Char) : Option Int :=
  match cs with
  | '-' :: r => (scanExpDigits r).map (fun n => -(n : Int))
  | '+' :: r => (scanExpDigits r).map (fun n => (n : Int))
  | r => (scanExpDigits r).map (fun n => (n : Int))

/-- An optional exponent part closing a float string: nothing, or the
letter e with a signed digit run. -/
def parseExp : List Char → Option Int
  | [] => some 0
  | 'e' :: rest => parseExpAfterE rest
  | 'E' :: rest => parseExpAfterE rest
  | _ => none

/-- The finite-float grammar after sign stripping, as Python float(s)
accepts it: an integer digit run with an optional fraction (either side of
the decimal point may be empty, not both) and an optional exponent.
Returns the decimal mantissa (integer and fraction digits together) and
the power-of-ten scale (exponent minus the number of fraction digits). -/
def parseFiniteBody (body : List Char) : Option (Nat × Int) :=
  match scanDigits body with
  | some (ip, _, rest) =>
    match rest with
    | '.' :: rest2 =>
      match scanDigits rest2 with
      | some (fp, fn, rest3) =>
        (parseExp rest3).map (fun e => (ip * 10 ^ fn + fp, e - (fn : Int)))
      | none => (parseExp rest2).map (fun e => (ip, e))
    | _ => (parseExp rest).map (fun e => (ip, e))
  | none =>
    match body with
    | '.' :: rest2 =>
      match scanDigits rest2 with
      | some (fp, fn, rest3) =>
        (parseExp rest3).map (fun e => (fp, e - (fn : Int)))
      | none => none
    | _ => none

/-- The exact rational value of sign, mantissa and power-of-ten scale. -/
def ratOfParts (neg : Bool) (mant : Nat) (scale : Int) : Rat :=
  let m : Int := if neg then -(mant : Int) else (mant : Int)
  match scale with
  | .ofNat k => Rat.divInt (m * ((10 ^ k : Nat) : Int)) 1
  | .negSucc k => Rat.divInt m ((10 ^ (k + 1) : Nat) : Int)

/-- The finite fragment of Python float-string parsing, which pydantic's
string coercion applies: optional surrounding whitespace, an optional
sign, then the finite-float grammar; the value is exact as a rational.
The inf and nan forms float(s) also accepts denote non-finite IEEE values
with no rational counterpart; they are recognized by `pyFloatString`, not
valued here. -/
def parseDecimal (s : String) : Option Rat :=
  let p := splitSign (stripWs s)
  (parseFiniteBody p.2).map (fun v => ratOfParts p.1 v.1 v.2)

/-- The inf and nan bodies float(s) accepts (case-insensitive), after
whitespace and sign stripping. -/
def isInfNanBody (body : List Char) : Bool :=
  let low := body.map Char.toLower
  low == ['i', 'n', 'f'] ||
    low == ['i', 'n', 'f', 'i', 'n', 'i', 't', 'y'] ||
    low == ['n', 'a', 'n']

/-- Whether Python float(s) accepts the string at all: a finite-float
body or an inf/nan body, after whitespace and sign stripping. -/
def pyFloatString (s : String) : Bool :=
  let p := splitSign (stripWs s)
  (parseFiniteBody p.2).isSome || isInfNanBody p.2

/-- Value accepted by a `float`-annotated pydantic field for a given JSON
input, under pydantic's non-strict coercion (float(v), as the v1 API this
service uses applies it): a JSON number is taken as is, a boolean is
coerced to 1 or 0, and a numerically parseable string is coerced to its
value; null, arrays, objects and non-numeric strings are rejected.
Strings in inf/nan form are accepted by the program with non-finite IEEE
values that have no counterpart in this rational embedding, so they carry
no value here; `floatRejected` below still counts them as accepted. -/
def coerceFloat : Json → Option Rat
  | .num q => some q
  | .jbool b => some (if b then 1 else 0)
  | .str s => parseDecimal s
  | _ => none

/-- The JSON values the float coercion rejects (float(v) raises): null,
arrays, objects, and strings that are neither numerically parseable nor
an inf/nan form. On these, and only these, the field fails validation. -/
def floatRejected : Json → Bool
  | .num _ => false
  | .jbool _ => false
  | .str s => !(pyFloatString s)
  | .null => true
  | .arr _ => true
  | .obj _ => true

/-- The value the request model binds to a declared field: the payload must
carry the key and its value must coerce to a float. -/
def fieldValue (payload : List (String × Json)) (k : String) : Option Rat :=
  (lookup payload k).bind coerceFloat

/-- Validation of a request body against `Sample`, field by field; all nine
declared fields are required (no defaults), undeclared keys are ignored
(pydantic's default extra-field policy). -/
def parseSampleOpt (payload : List (String × Json)) : Option Sample := do
  let tit ← fieldValue payload "TIT"
  let tat ← fieldValue payload "TAT"
  let cdp ← fieldValue payload "CDP"
  let gtep ← fieldValue payload "GTEP"
  let afdp ← fieldValue payload "AFDP"
  let a_t ← fieldValue payload "AT"
  let a_p ← fieldValue payload "AP"
  let a_h ← fieldValue payload "AH"
  let tey ← fieldValue payload "TEY"
  pure ⟨tit, tat, cdp, gtep, afdp, a_t, a_p, a_h, tey⟩

/-- Request-body validation as the transport layer applies it: a body that
does not validate against `Sample` is rejected with a client validation
error (HTTP 422) and the route handler is never entered. -/
def parseSample (payload : List (String × Json)) : Except ApiError Sample :=
  match parseSampleOpt payload with
  | some s => .ok s
  | none => .error .validation

/-- End-to-end handling of one request on one band's route: validate the
body against `Sample`, then run the band's handler on the resulting
record. -/
def handleRequest (st : ServerState) (b : Band) (payload : List (String × Json)) :
    Except ApiError (List (String × Rat)) :=
  match parseSample payload with
  | .error e => .error e
  | .ok s => route b st s

/-- Request handling together with the module-level state it leaves behind:
the handlers in api.py only read the feature/model globals and contain no
assignment to them, so the state after a request is the state before it. -/
def handleRequestSt (st : ServerState) (b : Band) (payload : List (String × Json)) :
    Except ApiError (List (String × Rat)) × ServerState :=
  (handleRequest st b payload, st)

/-- Key access `doc[k]` on a loaded JSON document: only an object with the
key yields a value; a missing key (KeyError) or a non-object document
(TypeError) raises. -/
def getKey (j : Json) (k : String) : Option Json :=
  match j with
  | .obj entries => lookup entries k
  | _ => none

/-- Startup loading of one band's feature metadata,
`json.load(open(path))["features"]`: a missing or unparseable artifact
(`none`) raises, as does a document without a "features" entry; the value
bound to "features" is returned as is, with no check of its shape. -/
def loadFeatures (artifact : Option Json) : Except ApiError Json :=
  match artifact with
  | none => .error .configuration
  | some j =>
    match getKey j "features" with
    | none => .error .configuration
    | some v => .ok v

/-- Module-level startup for the three feature-metadata artifacts, in
source order; the first raised exception aborts the process start, so no
route is ever served unless all three loads succeeded. -/
def startupFeatures (aFull a130 a160 : Option Json) :
    Except ApiError (Json × Json × Json) := do
  let f ← loadFeatures aFull
  let g ← loadFeatures a130
  let h ← loadFeatures a160
  pure (f, g, h)

/-- A concrete reading, used to instantiate the theorems: the spec's
end-to-end example with the fractional parts dropped. -/
def sampleA : Sample :=
  ⟨1100, 550, 12, 25, 3, 15, 1013, 60, 135⟩

/-- A concrete well-formed request body for `sampleA`. -/
def payloadA : List (String × Json) :=
  [("TIT", .num 1100), ("TAT", .num 550), ("CDP", .num 12),
   ("GTEP", .num 25), ("AFDP", .num 3), ("AT", .num 15),
   ("AP", .num 1013), ("AH", .num 60), ("TEY", .num 135)]

/-- A model that ignores its input and predicts the constant 42 for the
single row. -/
def modelConst : Model :=
  ⟨fun _ => [42]⟩

/-- A concrete loaded state: every band uses the full declared field order
and the constant model. -/
def stA : ServerState :=
  ⟨sampleFields, sampleFields, sampleFields, modelConst, modelConst, modelConst⟩

/-- A mis-configured loaded state whose full-band feature order names a
column that is not a `Sample` field. -/
def stBad : ServerState :=
  ⟨["BOGUS"], sampleFields, sampleFields, modelConst, modelConst, modelConst⟩

/-- A well-formed request body carrying `TIT` as the numeric string
"1100" instead of a JSON number. -/
def payloadStr : List (String × Json) :=
  [("TIT", .str "1100"), ("TAT", .num 550), ("CDP", .num 12),
   ("GTEP", .num 25), ("AFDP", .num 3), ("AT", .num 15),
   ("AP", .num 1013), ("AH", .num 60), ("TEY", .num 135)]

/-- A well-formed request body carrying `TIT` as the numeric string
"1e3" in exponent notation. -/
def payloadExp : List (String × Json) :=
  [("TIT", .str "1e3"), ("TAT", .num 550), ("CDP", .num 12),
   ("GTEP", .num 25), ("AFDP", .num 3), ("AT", .num 15),
   ("AP", .num 1013), ("AH", .num 60), ("TEY", .num 135)]

/-- A request body carrying `TIT` as a string that is not numerically
parseable. -/
def payloadBad : List (String × Json) :=
  [("TIT", .str "abc"), ("TAT", .num 550), ("CDP", .num 12),
   ("GTEP", .num 25), ("AFDP", .num 3), ("AT", .num 15),
   ("AP", .num 1013), ("AH", .num 60), ("TEY", .num 135)]

/-- A request body for `sampleA` that lacks the required field `TEY`. -/
def payloadMissing : List (String × Json) :=
  [("TIT", .num 1100), ("TAT", .num 550), ("CDP", .num 12),
   ("GTEP", .num 25), ("AFDP", .num 3), ("AT", .num 15),
   ("AP", .num 1013), ("AH", .num 60)]

theorem parseSampleOpt_fields {p : List (String × Json)} {s : Sample}
    (h : parseSampleOpt p = some s) :
    ∀ k ∈ sampleFields, (fieldValue p k).isSome := by
  simp only [parseSampleOpt, bind, Option.bind_eq_some, pure] at h
  obtain ⟨t1, h1, t2, h2, t3, h3, t4, h4, t5, h5, t6, h6, t7, h7, t8, h8, t9, h9, -⟩ := h
  intro k hk
  simp only [sampleFields, List.mem_cons, List.not_mem_nil, or_false] at hk
  rcases hk with rfl | rfl | rfl | rfl | rfl | rfl | rfl | rfl | rfl <;>
    simp [h1, h2, h3, h4, h5, h6, h7, h8, h9]

theorem parseSampleOpt_isSome {p : List (String × Json)}
    (h : ∀ k ∈ sampleFields, (fieldValue p k).isSome) :
    ∃ s, parseSampleOpt p = some s := by
  obtain ⟨t1, h1⟩ := Option.isSome_iff_exists.mp (h "TIT" (by decide))
  obtain ⟨t2, h2⟩ := Option.isSome_iff_exists.mp (h "TAT" (by decide))
  obtain ⟨t3, h3⟩ := Option.isSome_iff_exists.mp (h "CDP" (by decide))
  obtain ⟨t4, h4⟩ := Option.isSome_iff_exists.mp (h "GTEP" (by decide))
  obtain ⟨t5, h5⟩ := Option.isSome_iff_exists.mp (h "AFDP" (by decide))
  obtain ⟨t6, h6⟩ := Option.isSome_iff_exists.mp (h "AT" (by decide))
  obtain ⟨t7, h7⟩ := Option.isSome_iff_exists.mp (h "AP" (by decide))
  obtain ⟨t8, h8⟩ := Option.isSome_iff_exists.mp (h "AH" (by decide))
  obtain ⟨t9, h9⟩ := Option.isSome_iff_exists.mp (h "TEY" (by decide))
  exact ⟨⟨t1, t2, t3, t4, t5, t6, t7, t8, t9⟩, by
    simp [parseSampleOpt, h1, h2, h3, h4, h5, h6, h7, h8, h9]⟩

theorem coerceFloat_none_of_rejected {v : Json} (h : floatRejected v = true) :
    coerceFloat v = none := by
  cases v with
  | num q => simp [floatRejected] at h
  | jbool b => simp [floatRejected] at h
  | str s =>
    simp only [coerceFloat, parseDecimal]
    cases hpb : parseFiniteBody (splitSign (stripWs s)).2 with
    | none => rfl
    | some v => simp [floatRejected, pyFloatString, hpb] at h
  | null => rfl
  | arr elems => rfl
  | obj entries => rfl

theorem parseSampleOpt_none {p : List (String × Json)} {k : String}
    (hk : k ∈ sampleFields) (hfv : fieldValue p k = none) :
    parseSampleOpt p = none := by
  cases hpo : parseSampleOpt p with
  | none => rfl
  | some s =>
    have := parseSampleOpt_fields hpo k hk
    rw [hfv] at this
    simp at this

/-- C1: for every valid reading and every band, the single-row feature
vector handed to that band's model holds the reading's field values in
exactly the sequence of the band's loaded feature order (position i holds
the field named at position i of the order, not the record's declaration
order), and permuting a feature order changes which value occupies each
position (two permuted orders can produce different vectors on the same
reading). -/
theorem C1_feature_vector_order :
    (∀ (b : Band) (st : ServerState) (s : Sample) (x : List Rat),
      selectColumns (bandFeatures b st) s = .ok x →
      x.length = (bandFeatures b st).length ∧
      ∀ (i : Nat) (hi : i < (bandFeatures b st).length) (hx : i < x.length),
        getField s ((bandFeatures b st).get ⟨i, hi⟩) = some (x.get ⟨i, hx⟩)) ∧
    (∃ (s : Sample) (o o' : List String),
      List.Perm o o' ∧ selectColumns o s ≠ selectColumns o' s) := by
  constructor
  · intro b st s x h
    revert h
    generalize bandFeatures b st = order
    intro h
    unfold selectColumns at h
    by_cases hall : order.all (fun n => (getField s n).isSome) = true
    · rw [if_pos hall] at h
      obtain rfl : order.map (fun n => (getField s n).getD 0) = x := by
        exact Except.ok.inj h
      refine ⟨List.length_map _ _, ?_⟩
      intro i hi hx
      have hmem : order.get ⟨i, hi⟩ ∈ order := List.get_mem order i hi
      have hsome := List.all_eq_true.mp hall _ hmem
      obtain ⟨v, hv⟩ := Option.isSome_iff_exists.mp hsome
      simp only [List.get_eq_getElem] at hv
      simp only [List.get_eq_getElem, List.getElem_map]
      simp [hv]
    · rw [if_neg hall] at h
      exact Except.noConfusion h
  · refine ⟨sampleA, ["TIT", "TAT"], ["TAT", "TIT"], by decide, ?_⟩
    intro h
    exact absurd (Except.ok.inj h) (by decide)

/-- C1 witness: in the order ["TAT", "TIT"], position 0 of the vector built
from the example reading holds the TAT value 550, not the first declared
field. -/
theorem C1_feature_vector_order_witness :
    getField sampleA "TAT" = some 550 :=
  (C1_feature_vector_order.1 .full
      ⟨["TAT", "TIT"], [], [], modelConst, modelConst, modelConst⟩
      sampleA [550, 1100] rfl).2 0 (by decide) (by decide)

/-- C2: if some name of the feature order is not a field of the reading,
the handler fails with the feature-mismatch error and the model is never
invoked (the outcome does not depend on the model at all). -/
theorem C2_feature_mismatch_guard (features : List String) (m m' : Model) (s : Sample)
    (h : ∃ n ∈ features, getField s n = none) :
    predictHandler features m s = .error .featureMismatch ∧
    predictHandler features m s = predictHandler features m' s := by
  have hsel : selectColumns features s = .error .featureMismatch := by
    unfold selectColumns
    rw [if_neg]
    intro hall
    obtain ⟨n, hn, hnone⟩ := h
    have := List.all_eq_true.mp hall n hn
    rw [hnone] at this
    simp at this
  constructor <;> simp [predictHandler, hsel]

/-- C2 witness: a feature order naming the non-field "BOGUS" makes the
handler fail with the feature-mismatch error under any model. -/
theorem C2_feature_mismatch_guard_witness :
    predictHandler ["BOGUS"] modelConst sampleA = .error .featureMismatch ∧
    predictHandler ["BOGUS"] modelConst sampleA =
      predictHandler ["BOGUS"] ⟨fun _ => []⟩ sampleA :=
  C2_feature_mismatch_guard ["BOGUS"] modelConst ⟨fun _ => []⟩ sampleA
    ⟨"BOGUS", by decide, rfl⟩

/-- C3: a request body lacking any one of the nine required fields is
rejected with the validation (client) error before any route handler body
runs — the outcome is the same for every loaded state, so no model is
invoked. -/
theorem C3_missing_field_rejected (p : List (String × Json)) (b : Band)
    (st st' : ServerState) (k : String)
    (hk : k ∈ sampleFields) (hmiss : lookup p k = none) :
    handleRequest st b p = .error .validation ∧
    handleRequest st b p = handleRequest st' b p := by
  have hfv : fieldValue p k = none := by simp [fieldValue, hmiss]
  have hnone := parseSampleOpt_none hk hfv
  constructor <;> simp [handleRequest, parseSample, hnone]

/-- C3 witness: the example body without its TEY field is rejected as a
validation error on the full-range route. -/
theorem C3_missing_field_rejected_witness :
    handleRequest stA .full payloadMissing = .error .validation ∧
    handleRequest stA .full payloadMissing = handleRequest stBad .full payloadMissing :=
  C3_missing_field_rejected payloadMissing .full stA stBad "TEY" (by decide) rfl

/-- C4 counterexample: an artifact whose "features" entry is the empty list
loads successfully — startup does not fail with the configuration error on
an empty (or otherwise ill-shaped) features entry, contrary to the claim. -/
theorem C4_empty_features_accepted :
    loadFeatures (some (Json.obj [("features", Json.arr [])])) = .ok (Json.arr []) ∧
    loadFeatures (some (Json.obj [("features", Json.arr [])])) ≠ .error .configuration := by
  refine ⟨rfl, ?_⟩
  intro h
  exact Except.noConfusion h

/-- C4 amended: startup loading of a band's feature metadata fails with
the configuration error exactly when the artifact is missing or
unparseable, or when the loaded document has no "features" entry; any
value bound to "features" — even an empty or non-list value — is accepted
unchecked. Any failing load aborts the module-level startup sequence, so
no state is served from a partial registry. -/
theorem C4_startup_failures :
    (loadFeatures none = .error .configuration) ∧
    (∀ j : Json, getKey j "features" = none →
      loadFeatures (some j) = .error .configuration) ∧
    (∀ (j v : Json), getKey j "features" = some v → loadFeatures (some j) = .ok v) ∧
    (∀ (aFull a130 a160 : Option Json) (e : ApiError),
      loadFeatures aFull = .error e →
      startupFeatures aFull a130 a160 = .error e) ∧
    (∀ (aFull a130 a160 : Option Json) (e : ApiError) (f : Json),
      loadFeatures aFull = .ok f → loadFeatures a130 = .error e →
      startupFeatures aFull a130 a160 = .error e) ∧
    (∀ (aFull a130 a160 : Option Json) (e : ApiError) (f g : Json),
      loadFeatures aFull = .ok f → loadFeatures a130 = .ok g →
      loadFeatures a160 = .error e →
      startupFeatures aFull a130 a160 = .error e) := by
  refine ⟨rfl, ?_, ?_, ?_, ?_, ?_⟩
  · intro j hj
    simp [loadFeatures, hj]
  · intro j v hj
    simp [loadFeatures, hj]
  · intro aFull a130 a160 e h
    simp [startupFeatures, h, bind, Except.bind]
  · intro aFull a130 a160 e f h1 h2
    simp [startupFeatures, h1, h2, bind, Except.bind]
  · intro aFull a130 a160 e f g h1 h2 h3
    simp [startupFeatures, h1, h2, h3, bind, Except.bind]

/-- C4 witness: a missing full-band artifact aborts the whole startup
sequence with the configuration error. -/
theorem C4_startup_failures_witness :
    startupFeatures none (some (Json.obj [("features", Json.arr [])])) none =
      .error .configuration :=
  C4_startup_failures.2.2.2.1 none (some (Json.obj [("features", Json.arr [])]))
    none .configuration rfl

/-- C5: a band's route reads only that band's feature order and model —
two states agreeing on band b's entries give identical outcomes on band b,
whatever the other bands hold — and a failing projection on band b
surfaces its error as the route's outcome, with no fallback to another
band's model. -/
theorem C5_band_isolation (b : Band) (st st' : ServerState) (s : Sample)
    (hf : bandFeatures b st = bandFeatures b st')
    (hm : bandModel b st = bandModel b st') :
    route b st s = route b st' s ∧
    (∀ e : ApiError, selectColumns (bandFeatures b st) s = .error e →
      route b st s = .error e) := by
  constructor
  · cases b <;>
      simp only [route, predict_full, predict_130, predict_160, bandFeatures,
        bandModel] at hf hm ⊢ <;>
      rw [hf, hm]
  · intro e he
    cases b <;>
      simp only [route, predict_full, predict_130, predict_160,
        bandFeatures] at he ⊢ <;>
      simp [predictHandler, he]

/-- C5 witness: two states sharing the full band's entries but with the
mid- and high-band entries swapped out give the same full-route outcome,
and a full-band projection failure surfaces as the route's error. -/
theorem C5_band_isolation_witness :
    route .full stA sampleA =
      route .full ⟨sampleFields, ["BOGUS"], [], ⟨fun _ => [42]⟩, ⟨fun _ => []⟩,
        ⟨fun _ => []⟩⟩ sampleA ∧
    route .full stBad sampleA = .error .featureMismatch :=
  ⟨(C5_band_isolation .full stA
      ⟨sampleFields, ["BOGUS"], [], ⟨fun _ => [42]⟩, ⟨fun _ => []⟩, ⟨fun _ => []⟩⟩
      sampleA rfl rfl).1,
   (C5_band_isolation .full stBad stBad sampleA rfl rfl).2 .featureMismatch rfl⟩

/-- C6: a valid nine-field body accepted on any route answers a response
object with exactly one field, "NOX_pred", holding the first (single)
element of the band model's output on the one-row feature vector. -/
theorem C6_response_shape (b : Band) (st : ServerState) (p : List (String × Json))
    (s : Sample) (x : List Rat) (y : Rat) (t : List Rat)
    (hp : parseSample p = .ok s)
    (hx : selectColumns (bandFeatures b st) s = .ok x)
    (hy : (bandModel b st).predict x = y :: t) :
    handleRequest st b p = .ok [("NOX_pred", y)] := by
  have hr : route b st s = .ok [("NOX_pred", y)] := by
    cases b <;>
      simp only [route, predict_full, predict_130, predict_160, bandFeatures,
        bandModel] at hx hy ⊢ <;>
      simp [predictHandler, hx, hy]
  simp [handleRequest, hp, hr]

/-- C6 witness: the example body on the full-range route with the constant
model answers exactly the single-field object with its prediction. -/
theorem C6_response_shape_witness :
    handleRequest stA .full payloadA = .ok [("NOX_pred", 42)] :=
  C6_response_shape .full stA payloadA sampleA
    [1100, 550, 12, 25, 3, 15, 1013, 60, 135] 42 [] rfl rfl rfl

/-- C7: prediction is deterministic — two calls of a band's route on
identical readings against the same loaded state (models being pure
functions of their input vector) return identical results. -/
theorem C7_determinism (b : Band) (st : ServerState) (s : Sample)
    (r1 r2 : Except ApiError (List (String × Rat)))
    (h1 : r1 = route b st s) (h2 : r2 = route b st s) : r1 = r2 :=
  h1.trans h2.symm

/-- C7 witness: two calls on the full route with the example reading agree. -/
theorem C7_determinism_witness :
    route .full stA sampleA = route .full stA sampleA :=
  C7_determinism .full stA sampleA (route .full stA sampleA)
    (route .full stA sampleA) rfl rfl

/-- C8: handling a request leaves the loaded state unchanged — after any
call on any route, every band's feature order and bound model are exactly
their startup values (the handlers only read the registries). -/
theorem C8_handlers_read_only (st : ServerState) (b : Band)
    (p : List (String × Json)) :
    (handleRequestSt st b p).2 = st ∧
    ∀ b' : Band,
      bandFeatures b' (handleRequestSt st b p).2 = bandFeatures b' st ∧
      bandModel b' (handleRequestSt st b p).2 = bandModel b' st :=
  ⟨rfl, fun _ => ⟨rfl, rfl⟩⟩

/-- C9: undeclared extra fields in a body are ignored — two bodies that
agree on the nine declared fields (whatever other keys they carry) are
handled identically on every route. -/
theorem C9_extra_fields_ignored (b : Band) (st : ServerState)
    (p1 p2 : List (String × Json))
    (h : ∀ k ∈ sampleFields, lookup p1 k = lookup p2 k) :
    handleRequest st b p1 = handleRequest st b p2 := by
  have hfv : ∀ k ∈ sampleFields, fieldValue p1 k = fieldValue p2 k := by
    intro k hk
    simp [fieldValue, h k hk]
  have hps : parseSampleOpt p1 = parseSampleOpt p2 := by
    unfold parseSampleOpt
    rw [hfv "TIT" (by decide), hfv "TAT" (by decide), hfv "CDP" (by decide),
      hfv "GTEP" (by decide), hfv "AFDP" (by decide), hfv "AT" (by decide),
      hfv "AP" (by decide), hfv "AH" (by decide), hfv "TEY" (by decide)]
  simp [handleRequest, parseSample, hps]

/-- C9 witness: appending an undeclared "EXTRA" field to the example body
leaves the full-route outcome unchanged (both bodies are accepted). -/
theorem C9_extra_fields_ignored_witness :
    handleRequest stA .full (payloadA ++ [("EXTRA", Json.num 1)]) =
      handleRequest stA .full payloadA :=
  C9_extra_fields_ignored .full stA (payloadA ++ [("EXTRA", Json.num 1)]) payloadA
    (by
      intro k hk
      simp only [sampleFields, List.mem_cons, List.not_mem_nil, or_false] at hk
      rcases hk with rfl | rfl | rfl | rfl | rfl | rfl | rfl | rfl | rfl <;> rfl)

/-- C10: the request model coerces numerically parseable values rather
than rejecting them — a JSON number is taken as is, a boolean becomes 1
or 0, and a numeric string is coerced to its value, including the plain
("1100"), exponent ("1e3") and whitespace/sign/fraction (" -2.5 ") forms
of the float-string grammar — and a body all of whose nine declared
fields carry coercible values is accepted; only a declared field whose
value the float coercion rejects (null, an array, an object, or a string
that is neither numerically parseable nor an inf/nan form, such as
"abc") makes the body rejected, with the validation error. -/
theorem C10_numeric_coercion :
    (∀ q : Rat, coerceFloat (.num q) = some q) ∧
    coerceFloat (.str "1100") = some 1100 ∧
    coerceFloat (.str "1e3") = some 1000 ∧
    coerceFloat (.str " -2.5 ") = some (Rat.divInt (-5) 2) ∧
    (∀ b : Bool, coerceFloat (.jbool b) = some (if b then 1 else 0)) ∧
    (∀ p : List (String × Json),
      (∀ k ∈ sampleFields, ∃ v q, lookup p k = some v ∧ coerceFloat v = some q) →
      ∃ s, parseSample p = .ok s) ∧
    (∀ (p : List (String × Json)) (k : String) (v : Json),
      k ∈ sampleFields → lookup p k = some v → floatRejected v = true →
      parseSample p = .error .validation) ∧
    floatRejected (Json.str "abc") = true ∧
    floatRejected (Json.str "1e3") = false := by
  refine ⟨fun q => rfl, by decide, by decide, by decide, fun b => rfl, ?_, ?_,
    by decide, by decide⟩
  · intro p h
    have hsome : ∀ k ∈ sampleFields, (fieldValue p k).isSome := by
      intro k hk
      obtain ⟨v, q, hv, hq⟩ := h k hk
      simp [fieldValue, hv, hq]
    obtain ⟨s, hs⟩ := parseSampleOpt_isSome hsome
    exact ⟨s, by simp [parseSample, hs]⟩
  · intro p k v hk hv hrej
    have hfv : fieldValue p k = none := by
      simp [fieldValue, hv, coerceFloat_none_of_rejected hrej]
    have := parseSampleOpt_none hk hfv
    simp [parseSample, this]

/-- C10 witness: bodies carrying TIT as the numeric strings "1100" and
"1e3" are accepted, and the same body with TIT as the unparseable string
"abc" is rejected as a validation error. -/
theorem C10_numeric_coercion_witness :
    coerceFloat (Json.num 7) = some 7 ∧
    (∃ s, parseSample payloadStr = .ok s) ∧
    (∃ s, parseSample payloadExp = .ok s) ∧
    parseSample payloadBad = .error .validation :=
  ⟨C10_numeric_coercion.1 7,
   C10_numeric_coercion.2.2.2.2.2.1 payloadStr
     (by
       intro k hk
       simp only [sampleFields, List.mem_cons, List.not_mem_nil, or_false] at hk
       rcases hk with rfl | rfl | rfl | rfl | rfl | rfl | rfl | rfl | rfl <;>
         exact ⟨_, _, rfl, rfl⟩),
   C10_numeric_coercion.2.2.2.2.2.1 payloadExp
     (by
       intro k hk
       simp only [sampleFields, List.mem_cons, List.not_mem_nil, or_false] at hk
       rcases hk with rfl | rfl | rfl | rfl | rfl | rfl | rfl | rfl | rfl <;>
         exact ⟨_, _, rfl, rfl⟩),
   C10_numeric_coercion.2.2.2.2.2.2.1 payloadBad "TIT" (Json.str "abc")
     (by decide) rfl (by decide)⟩

end TurbineNox
